import Mathlib

/-!
Verification of `scrape_weather.py` (repository mprpic/weather).

The script scrapes weather-model images for a list of locations, saves each
image under a site-derived file name in a per-location directory, and joins
all images of a location vertically into `all.png`.

The embedding below mirrors the source:
* `urlSiteFile` embeds the `if/elif` URL dispatch of `scrape_and_save`
  (lines 90-105), with Python's `in` substring test modelled by `hasSubstr`.
* `maxWidth`, `totalHeight`, `combinedImage`, `pasteOffsets` embed the
  compositing step (lines 114-130); Python's `//` is `Int.fdiv`.
* The filesystem is a list of directories plus a list of written files
  keyed by (directory, file name); `List.find?` on the most recent write
  models overwriting.
* `processUrls` / `scrape_and_save` / `runLocations` / `mainReset` embed the
  scraping loop, the per-location function, the `__main__` driver loop and
  the output-directory reset; Python exceptions become `Except` values or an
  `Option ScrapeErr` field that aborts the remaining work.
* `scrape_meteoblue` embeds the one `try/except NoSuchElementException`
  of the script over an abstract browser environment.
-/

/-- Raster image, only its pixel dimensions (all the compositing logic uses). -/
structure Img where
  width : Nat
  height : Nat
deriving DecidableEq

/-- Does `s` start with the characters `pat`? -/
def startsWithChars : List Char → List Char → Bool
  | [], _ => true
  | _ :: _, [] => false
  | a :: as, b :: bs => a == b && startsWithChars as bs

/-- Does `s` contain `pat` as a contiguous run? -/
def containsChars (pat : List Char) : List Char → Bool
  | [] => pat.isEmpty
  | c :: rest => startsWithChars pat (c :: rest) || containsChars pat rest

/-- Python's `pat in s` substring test on strings. -/
def hasSubstr (s pat : String) : Bool :=
  containsChars pat.toList s.toList

/-- URL dispatch of `scrape_and_save` (lines 90-105): the site-derived base
file name for a URL, `none` for an unknown website. -/
def urlSiteFile (url : String) : Option String :=
  if hasSubstr url "meteoblue.com" then some "meteoblue"
  else if hasSubstr url "yr.no" then some "yr"
  else if hasSubstr url "shmu.sk" then
    some (if hasSubstr url "mgram10" then "shmu_ecmwf" else "shmu_aladin")
  else none

/-- File name actually written for a URL (line 107 appends `.png`). -/
def derivedFileName (url : String) : Option String :=
  (urlSiteFile url).map (fun n => n ++ ".png")

/-- Line written to stderr for an unknown website (line 104). -/
def unknownSiteMsg (url : String) : String :=
  "Unknown website: " ++ url ++ "\n"

/-- `image_spacing = 100` (line 121). -/
def image_spacing : Nat := 100

/-- `FILE_DIR = './weather'` (line 22). -/
def FILE_DIR : String := "./weather"

/-- Python's `max` over the widths (line 116); the call site guarantees the
list is non-empty (`max` on an empty sequence raises `ValueError`, which the
pipeline models separately). -/
def maxWidth (images : List Img) : Nat :=
  match images with
  | [] => 0
  | image :: rest => Nat.max image.width (maxWidth rest)

/-- `total_height = sum(image.height for image in images)` (line 117). -/
def totalHeight (images : List Img) : Nat :=
  (images.map Img.height).sum

/-- The canvas created on line 122:
`Image.new('RGBA', (max_width, total_height + image_spacing * len(images)), 'white')`. -/
def combinedImage (images : List Img) : Img :=
  ⟨maxWidth images, totalHeight images + image_spacing * images.length⟩

/-- The paste loop of lines 124-128: for each image, its
`(horizontal_offset, vertical_offset)`, starting from vertical offset `v`.
`horizontal_offset = (max_width - image.width) // 2` uses Python floor
division on ints, i.e. `Int.fdiv`. -/
def pasteOffsets (maxW : Nat) : List Img → Nat → List (Int × Nat)
  | [], _ => []
  | image :: rest, v =>
    (Int.fdiv ((maxW : Int) - (image.width : Int)) 2, v)
      :: pasteOffsets maxW rest (v + image.height + image_spacing)

/-- All paste positions used when building `all.png` for `images`. -/
def combinedPastes (images : List Img) : List (Int × Nat) :=
  pasteOffsets (maxWidth images) images 0

/-- Failures the script can raise: Selenium's `NoSuchElementException`,
the `WebDriverWait` timeout, network/file I/O errors, `os.makedirs` on an
existing path (`FileExistsError`), and `max()` on an empty sequence
(`ValueError`). -/
inductive ScrapeErr where
  | noSuchElement
  | timeoutError
  | ioError
  | fileExistsError
  | valueError
deriving DecidableEq

/-- Filesystem state: existing directories, and written files keyed by
(directory, file name) with their image content.  New writes are prepended,
so `List.find?` sees the most recent write (overwrite semantics). -/
structure Fs where
  dirs : List String
  files : List ((String × String) × Img)
deriving DecidableEq

/-- `open(path, 'wb').write(image)` (lines 109-110): overwrites any previous
content at the same path. -/
def writeFile (fs : Fs) (p : String × String) (img : Img) : Fs :=
  { fs with files := (p, img) :: fs.files }

/-- `Image.open(path)` (line 115): content of the most recent write. -/
def readImage (fs : Fs) (p : String × String) : Img :=
  ((fs.files.find? (fun e => e.1.1 == p.1 && e.1.2 == p.2)).map (fun e => e.2)).getD ⟨0, 0⟩

/-- `os.makedirs(path)` (lines 86, 140): raises `FileExistsError` when the
directory already exists. -/
def makedirs (fs : Fs) (path : String) : Except ScrapeErr Fs :=
  if path ∈ fs.dirs then .error .fileExistsError
  else .ok { fs with dirs := path :: fs.dirs }

/-- The distinct file names present in directory `dir`. -/
def dirFiles (fs : Fs) (dir : String) : List String :=
  ((fs.files.filter (fun e => e.1.1 == dir)).map (fun e => e.1.2)).dedup

/-- Is directory `d` the `./weather` tree root or inside it? -/
def inWeatherTree (d : String) : Bool :=
  d == FILE_DIR || startsWithChars (FILE_DIR ++ "/").toList d.toList

/-- `shutil.rmtree(FILE_DIR)` (line 139): removes the whole tree. -/
def rmtreeWeather (fs : Fs) : Fs :=
  { dirs := fs.dirs.filter (fun d => !inWeatherTree d),
    files := fs.files.filter (fun e => !inWeatherTree e.1.1) }

/-- Lines 138-140 of `__main__`: remove previous scraped data if present,
then create a fresh empty `./weather`. -/
def mainReset (fs : Fs) : Except ScrapeErr Fs :=
  let fs1 := if FILE_DIR ∈ fs.dirs then rmtreeWeather fs else fs
  makedirs fs1 FILE_DIR

/-- A scraper in which every fetch succeeds with the image `f url`. -/
def fetchOk (f : String → Img) : String → Except ScrapeErr Img :=
  fun url => .ok (f url)

/-- State after the `for url in urls` loop of `scrape_and_save`
(lines 89-112): filesystem, stderr warning lines, the `scraped_images`
path list, and the aborting error if a scrape raised. -/
structure UrlsResult where
  fs : Fs
  warns : List String
  scraped : List (String × String)
  err : Option ScrapeErr
deriving DecidableEq

/-- The `for url in urls` loop of `scrape_and_save` (lines 89-112).
`fetchR url` is the outcome of the site extractor dispatched for `url`;
an unknown website warns and continues; a raising extractor aborts the
whole loop with the state written so far. -/
def processUrls (fetchR : String → Except ScrapeErr Img) (destDir : String) :
    List String → Fs → List String → List (String × String) → UrlsResult
  | [], fs, warns, scraped => ⟨fs, warns, scraped, none⟩
  | url :: rest, fs, warns, scraped =>
    match urlSiteFile url with
    | none => processUrls fetchR destDir rest fs (warns ++ [unknownSiteMsg url]) scraped
    | some name =>
      match fetchR url with
      | .error e => ⟨fs, warns, scraped, some e⟩
      | .ok img =>
        let path : String × String := (destDir, name ++ ".png")
        processUrls fetchR destDir rest (writeFile fs path img) warns (scraped ++ [path])

/-- Outcome of `scrape_and_save` for one location. -/
structure SaveResult where
  fs : Fs
  warns : List String
  err : Option ScrapeErr
deriving DecidableEq

/-- `scrape_and_save(browser, location, urls)` (lines 81-130): create the
per-location directory, scrape every URL, then open the saved images and
write the combined `all.png`.  `max()` over zero images raises `ValueError`. -/
def scrape_and_save (fetchR : String → Except ScrapeErr Img) (fs : Fs)
    (location : String) (urls : List String) : SaveResult :=
  let destDir := FILE_DIR ++ "/" ++ location
  match makedirs fs destDir with
  | .error e => ⟨fs, [], some e⟩
  | .ok fs1 =>
    let r := processUrls fetchR destDir urls fs1 [] []
    match r.err with
    | some e => ⟨r.fs, r.warns, some e⟩
    | none =>
      let images := r.scraped.map (readImage r.fs)
      match images with
      | [] => ⟨r.fs, r.warns, some .valueError⟩
      | _ :: _ => ⟨writeFile r.fs (destDir, "all.png") (combinedImage images), r.warns, none⟩

/-- The `for location in locations` driver loop (lines 147-148): sequential,
a raising location aborts the run with the filesystem as left behind. -/
def runLocations (fetchR : String → Except ScrapeErr Img) :
    List (String × List String) → Fs → Fs × List String × Option ScrapeErr
  | [], fs => (fs, [], none)
  | (name, urls) :: rest, fs =>
    let r := scrape_and_save fetchR fs name urls
    match r.err with
    | some e => (r.fs, r.warns, some e)
    | none =>
      let t := runLocations fetchR rest r.fs
      (t.1, r.warns ++ t.2.1, t.2.2)

/-- Abstract browser outcomes seen by `scrape_meteoblue` (lines 35-62):
the cookie-consent element lookup, the bounded 10-second wait for the
`loaded` class, the lookup of the lazy-loaded image's `src`, and the
`urlopen` fetch of the raw bytes. -/
structure MeteoblueEnv where
  cookieLookup : Except ScrapeErr Unit
  waitLoaded : Except ScrapeErr Unit
  imageSrc : Except ScrapeErr String
  fetchBytes : String → Except ScrapeErr Img

/-- `scrape_meteoblue` (lines 35-62): only `NoSuchElementException` from the
cookie-consent lookup is caught (`try/except/else`, lines 42-47); every other
failure propagates. -/
def scrape_meteoblue (env : MeteoblueEnv) : Except ScrapeErr Img :=
  let afterCookie : Except ScrapeErr Unit :=
    match env.cookieLookup with
    | .error .noSuchElement => .ok ()
    | r => r
  afterCookie.bind (fun _ =>
    env.waitLoaded.bind (fun _ =>
      env.imageSrc.bind (fun src => env.fetchBytes src)))

lemma startsWithChars_self_append (pat b : List Char) :
    startsWithChars pat (pat ++ b) = true := by
  induction pat with
  | nil => rfl
  | cons a as ih => simp [startsWithChars, ih]

lemma containsChars_of_starts (pat s : List Char) (h : startsWithChars pat s = true) :
    containsChars pat s = true := by
  cases s with
  | nil =>
    cases pat with
    | nil => rfl
    | cons a as => simp [startsWithChars] at h
  | cons c rest => simp [containsChars, h]

lemma containsChars_append_left (pat a s : List Char) (h : containsChars pat s = true) :
    containsChars pat (a ++ s) = true := by
  induction a with
  | nil => simpa using h
  | cons c a ih => simp [containsChars, ih]

lemma toList_append (s t : String) : (s ++ t).toList = s.toList ++ t.toList :=
  String.data_append s t

lemma hasSubstr_of_middle (pre u suf : String) :
    hasSubstr (pre ++ u ++ suf) u = true := by
  have h1 : containsChars u.toList (u.toList ++ suf.toList) = true :=
    containsChars_of_starts _ _ (startsWithChars_self_append _ _)
  have h2 := containsChars_append_left u.toList pre.toList _ h1
  have h3 : (pre ++ u ++ suf).toList = pre.toList ++ (u.toList ++ suf.toList) := by
    rw [toList_append, toList_append, List.append_assoc]
  rw [hasSubstr, h3]
  exact h2

lemma width_le_maxWidth (images : List Img) (img : Img) (h : img ∈ images) :
    img.width ≤ maxWidth images := by
  induction images with
  | nil => cases h
  | cons a rest ih =>
    rcases List.mem_cons.mp h with h1 | h2
    · subst h1; simp [maxWidth, Nat.le_max_left]
    · exact le_trans (ih h2) (by simp [maxWidth, Nat.le_max_right])

lemma maxWidth_cons (a : Img) (rest : List Img) :
    maxWidth (a :: rest) = Nat.max a.width (maxWidth rest) := rfl

lemma maxWidth_is_attained (images : List Img) (h : images ≠ []) :
    ∃ img ∈ images, img.width = maxWidth images := by
  induction images with
  | nil => exact absurd rfl h
  | cons a rest ih =>
    cases rest with
    | nil => exact ⟨a, by simp, by simp [maxWidth]⟩
    | cons b rest2 =>
      rcases ih (by simp) with ⟨img, hmem, heq⟩
      rcases Nat.le_total a.width (maxWidth (b :: rest2)) with hle | hle
      · refine ⟨img, by simp [hmem], ?_⟩
        rw [maxWidth_cons]; exact heq.trans (max_eq_right hle).symm
      · refine ⟨a, by simp, ?_⟩
        rw [maxWidth_cons]; exact (max_eq_left hle).symm

lemma pasteOffsets_length (maxW : Nat) (l : List Img) (v : Nat) :
    (pasteOffsets maxW l v).length = l.length := by
  induction l generalizing v with
  | nil => rfl
  | cons a rest ih => simp [pasteOffsets, ih]

lemma pasteOffsets_get (maxW : Nat) (l : List Img) (v i : Nat) (h : i < l.length)
    (h2 : i < (pasteOffsets maxW l v).length) :
    (pasteOffsets maxW l v).get ⟨i, h2⟩ =
      (Int.fdiv ((maxW : Int) - ((l.get ⟨i, h⟩).width : Int)) 2,
        v + ((l.take i).map (fun im => im.height + image_spacing)).sum) := by
  induction l generalizing v i with
  | nil => exact absurd h (by simp)
  | cons a rest ih =>
    cases i with
    | zero => simp [pasteOffsets]
    | succ i =>
      have h3 : i < rest.length := by simpa using h
      have h4 : i < (pasteOffsets maxW rest (v + a.height + image_spacing)).length := by
        rw [pasteOffsets_length]; exact h3
      have hstep : (pasteOffsets maxW (a :: rest) v).get ⟨i + 1, h2⟩ =
          (pasteOffsets maxW rest (v + a.height + image_spacing)).get ⟨i, h4⟩ := by
        simp [pasteOffsets]
      rw [hstep, ih (v + a.height + image_spacing) i h3 h4]
      simp [List.take_succ_cons]
      omega

lemma fdiv_natCast_two (n : Nat) : Int.fdiv (n : Int) 2 = ((n / 2 : Nat) : Int) := by
  rw [Int.fdiv_eq_tdiv (by positivity) (by norm_num)]
  exact_mod_cast (Int.ofNat_tdiv n 2).symm

/-- Claim C1: for a non-empty image list, the composite canvas width is the
maximum width among the images (an upper bound that is attained), and its
height is the sum of the heights plus a fixed 100-pixel spacing per image. -/
theorem C1_composite_dimensions (images : List Img) (h : images ≠ []) :
    (∀ img ∈ images, img.width ≤ (combinedImage images).width) ∧
    (∃ img ∈ images, img.width = (combinedImage images).width) ∧
    (combinedImage images).height =
      (images.map Img.height).sum + 100 * images.length := by
  refine ⟨fun img hm => width_le_maxWidth images img hm, maxWidth_is_attained images h, ?_⟩
  simp [combinedImage, totalHeight, image_spacing, Nat.mul_comm]

theorem C1_composite_dimensions_check :
    (combinedImage [⟨3, 4⟩, ⟨5, 6⟩]).height = ([(⟨3, 4⟩ : Img), ⟨5, 6⟩].map Img.height).sum + 100 * 2 :=
  (C1_composite_dimensions [⟨3, 4⟩, ⟨5, 6⟩] (by decide)).2.2

/-- Claim C2: every pasted image is horizontally centered: its left offset is
(max width - image width) / 2 with integer division. -/
theorem C2_horizontal_centering (images : List Img) (i : Nat)
    (h : i < images.length) (h2 : i < (combinedPastes images).length) :
    ((combinedPastes images).get ⟨i, h2⟩).1 =
      (((maxWidth images - (images.get ⟨i, h⟩).width) / 2 : Nat) : Int) := by
  have hw : (images.get ⟨i, h⟩).width ≤ maxWidth images :=
    width_le_maxWidth images _ (List.get_mem _ _ _)
  have h2w : i < (pasteOffsets (maxWidth images) images 0).length := h2
  have hg : (combinedPastes images).get ⟨i, h2⟩ =
      (Int.fdiv ((maxWidth images : Int) - ((images.get ⟨i, h⟩).width : Int)) 2,
        0 + ((images.take i).map (fun im => im.height + image_spacing)).sum) :=
    pasteOffsets_get (maxWidth images) images 0 i h h2w
  have hcast : ((maxWidth images : Int) - ((images.get ⟨i, h⟩).width : Int)) =
      ((maxWidth images - (images.get ⟨i, h⟩).width : Nat) : Int) := by omega
  rw [hg]
  rw [show (Int.fdiv ((maxWidth images : Int) - ((images.get ⟨i, h⟩).width : Int)) 2,
      0 + ((images.take i).map (fun im => im.height + image_spacing)).sum).1 =
      Int.fdiv ((maxWidth images : Int) - ((images.get ⟨i, h⟩).width : Int)) 2 from rfl]
  rw [hcast, fdiv_natCast_two]

theorem C2_horizontal_centering_check :
    ((combinedPastes [⟨10, 4⟩, ⟨4, 6⟩]).get ⟨1, by decide⟩).1 =
      (((maxWidth [⟨10, 4⟩, ⟨4, 6⟩] - ([(⟨10, 4⟩ : Img), ⟨4, 6⟩].get ⟨1, by decide⟩).width) / 2 : Nat) : Int) :=
  C2_horizontal_centering [⟨10, 4⟩, ⟨4, 6⟩] 1 (by decide) (by decide)

/-- Claim C3: images are stacked top to bottom in list order; the i-th image's
top offset is the sum of (height + 100) over all earlier images, so the first
image sits at offset 0. -/
theorem C3_vertical_offsets (images : List Img) (i : Nat)
    (h : i < images.length) (h2 : i < (combinedPastes images).length) :
    ((combinedPastes images).get ⟨i, h2⟩).2 =
      ((images.take i).map (fun im => im.height + 100)).sum := by
  have h2w : i < (pasteOffsets (maxWidth images) images 0).length := h2
  have hg : (combinedPastes images).get ⟨i, h2⟩ =
      (Int.fdiv ((maxWidth images : Int) - ((images.get ⟨i, h⟩).width : Int)) 2,
        0 + ((images.take i).map (fun im => im.height + image_spacing)).sum) :=
    pasteOffsets_get (maxWidth images) images 0 i h h2w
  rw [hg]
  simp [image_spacing]

theorem C3_vertical_offsets_check :
    ((combinedPastes [⟨10, 4⟩, ⟨4, 6⟩]).get ⟨1, by decide⟩).2 =
      (([(⟨10, 4⟩ : Img), ⟨4, 6⟩].take 1).map (fun im => im.height + 100)).sum :=
  C3_vertical_offsets [⟨10, 4⟩, ⟨4, 6⟩] 1 (by decide) (by decide)

/-- Claim C5: URL dispatch tests the site substrings in the order
meteoblue.com, yr.no, shmu.sk; the written file names are meteoblue.png,
yr.png, and for shmu.sk the mgram10 substring selects shmu_ecmwf.png over
shmu_aladin.png. -/
theorem C5_url_classification (url : String) :
    (hasSubstr url "meteoblue.com" = true →
        derivedFileName url = some "meteoblue.png") ∧
    (hasSubstr url "meteoblue.com" = false → hasSubstr url "yr.no" = true →
        derivedFileName url = some "yr.png") ∧
    (hasSubstr url "meteoblue.com" = false → hasSubstr url "yr.no" = false →
        hasSubstr url "shmu.sk" = true → hasSubstr url "mgram10" = true →
        derivedFileName url = some "shmu_ecmwf.png") ∧
    (hasSubstr url "meteoblue.com" = false → hasSubstr url "yr.no" = false →
        hasSubstr url "shmu.sk" = true → hasSubstr url "mgram10" = false →
        derivedFileName url = some "shmu_aladin.png") := by
  refine ⟨?_, ?_, ?_, ?_⟩
  · intro h1; simp [derivedFileName, urlSiteFile, h1]
  · intro h1 h2; simp [derivedFileName, urlSiteFile, h1, h2]
  · intro h1 h2 h3 h4; simp [derivedFileName, urlSiteFile, h1, h2, h3, h4]
  · intro h1 h2 h3 h4; simp [derivedFileName, urlSiteFile, h1, h2, h3, h4]

theorem C5_url_classification_check :
    hasSubstr "x.meteoblue.com/a" "meteoblue.com" = true ∧
    derivedFileName "x.meteoblue.com/a" = some "meteoblue.png" :=
  ⟨by decide, (C5_url_classification "x.meteoblue.com/a").1 (by decide)⟩

/-- Claim C6: a URL matching no known site yields exactly one stderr warning
line, which contains the URL, writes no file, and processing continues with
the remaining URLs of the location. -/
theorem C6_unknown_url (fetchR : String → Except ScrapeErr Img) (destDir url : String)
    (rest : List String) (fs : Fs) (warns : List String)
    (scraped : List (String × String)) (h : urlSiteFile url = none) :
    processUrls fetchR destDir (url :: rest) fs warns scraped =
        processUrls fetchR destDir rest fs (warns ++ [unknownSiteMsg url]) scraped ∧
    hasSubstr (unknownSiteMsg url) url = true := by
  constructor
  · simp [processUrls, h]
  · exact hasSubstr_of_middle "Unknown website: " url "\n"

theorem C6_unknown_url_check :
    urlSiteFile "x.example" = none ∧
    processUrls (fetchOk fun _ => ⟨1, 1⟩) "d" ["x.example"] ⟨[], []⟩ [] [] =
      processUrls (fetchOk fun _ => ⟨1, 1⟩) "d" [] ⟨[], []⟩
        ([] ++ [unknownSiteMsg "x.example"]) [] :=
  ⟨by decide,
    (C6_unknown_url (fetchOk fun _ => ⟨1, 1⟩) "d" "x.example" [] ⟨[], []⟩ [] []
      (by decide)).1⟩

/-- The `.png` file name written for a recognized URL (line 107). -/
def sitePng (url : String) : String :=
  (urlSiteFile url).getD "" ++ ".png"

lemma urlSiteFile_mem (u n : String) (h : urlSiteFile u = some n) :
    n = "meteoblue" ∨ n = "yr" ∨ n = "shmu_ecmwf" ∨ n = "shmu_aladin" := by
  rw [urlSiteFile] at h
  split_ifs at h <;> simp_all

lemma sitePng_ne_all (u : String) (h : (urlSiteFile u).isSome) :
    sitePng u ≠ "all.png" := by
  cases hs : urlSiteFile u with
  | none => rw [hs] at h; simp at h
  | some n =>
    have hv := urlSiteFile_mem u n hs
    rw [sitePng, hs]
    rcases hv with h1 | h1 | h1 | h1 <;> subst h1 <;> decide

lemma processUrls_fs_dirs (fetchR : String → Except ScrapeErr Img) (destDir : String) :
    ∀ (urls : List String) (fs : Fs) (warns : List String)
      (scraped : List (String × String)),
    (processUrls fetchR destDir urls fs warns scraped).fs.dirs = fs.dirs := by
  intro urls
  induction urls with
  | nil => intro fs warns scraped; rfl
  | cons url rest ih =>
    intro fs warns scraped
    cases h : urlSiteFile url with
    | none => simp only [processUrls, h]; exact ih fs _ scraped
    | some name =>
      cases hf : fetchR url with
      | error e => simp [processUrls, h, hf]
      | ok img =>
        simp only [processUrls, h, hf]
        rw [ih]
        simp [writeFile]

lemma processUrls_all_unknown (fetchR : String → Except ScrapeErr Img) (destDir : String) :
    ∀ (urls : List String) (fs : Fs) (warns : List String)
      (scraped : List (String × String)),
    (∀ u ∈ urls, urlSiteFile u = none) →
    processUrls fetchR destDir urls fs warns scraped =
      ⟨fs, warns ++ urls.map unknownSiteMsg, scraped, none⟩ := by
  intro urls
  induction urls with
  | nil => intro fs warns scraped hk; simp [processUrls]
  | cons url rest ih =>
    intro fs warns scraped hk
    have h : urlSiteFile url = none := hk url (by simp)
    simp only [processUrls, h]
    rw [ih fs (warns ++ [unknownSiteMsg url]) scraped (fun u hu => hk u (by simp [hu]))]
    simp

lemma processUrls_ok (f : String → Img) (destDir : String) :
    ∀ (urls : List String) (fs : Fs) (warns : List String)
      (scraped : List (String × String)),
    (∀ u ∈ urls, (urlSiteFile u).isSome) →
    processUrls (fetchOk f) destDir urls fs warns scraped =
      ⟨⟨fs.dirs, (urls.map (fun u => ((destDir, sitePng u), f u))).reverse ++ fs.files⟩,
        warns, scraped ++ urls.map (fun u => (destDir, sitePng u)), none⟩ := by
  intro urls
  induction urls with
  | nil => intro fs warns scraped hk; simp [processUrls]
  | cons url rest ih =>
    intro fs warns scraped hk
    have hu : (urlSiteFile url).isSome := hk url (by simp)
    cases h : urlSiteFile url with
    | none => rw [h] at hu; simp at hu
    | some name =>
      have hname : sitePng url = name ++ ".png" := by simp [sitePng, h]
      simp only [processUrls, h, fetchOk]
      rw [ih (writeFile fs (destDir, name ++ ".png") (f url)) warns
        (scraped ++ [(destDir, name ++ ".png")]) (fun u hu2 => hk u (by simp [hu2]))]
      simp [writeFile, hname, List.append_assoc]

lemma scrape_and_save_dirs (fetchR : String → Except ScrapeErr Img) (fs : Fs)
    (location : String) (urls : List String) :
    (scrape_and_save fetchR fs location urls).fs.dirs =
      if (FILE_DIR ++ "/" ++ location) ∈ fs.dirs then fs.dirs
      else (FILE_DIR ++ "/" ++ location) :: fs.dirs := by
  by_cases h : (FILE_DIR ++ "/" ++ location) ∈ fs.dirs
  · simp [scrape_and_save, makedirs, h]
  · rw [if_neg h]
    simp only [scrape_and_save, makedirs, if_neg h]
    have hd := processUrls_fs_dirs fetchR (FILE_DIR ++ "/" ++ location) urls
      { fs with dirs := (FILE_DIR ++ "/" ++ location) :: fs.dirs } [] []
    cases hr : processUrls fetchR (FILE_DIR ++ "/" ++ location) urls
        { fs with dirs := (FILE_DIR ++ "/" ++ location) :: fs.dirs } [] [] with
    | mk rfs rwarns rscraped rerr =>
      rw [hr] at hd
      cases rerr with
      | some e => simpa using hd
      | none =>
        cases himg : rscraped.map (readImage rfs) with
        | nil => simp only [himg]; simpa using hd
        | cons a l => simp only [himg]; simp [writeFile]; simpa using hd

/-- Claim C7: the only tolerated failure is the absent cookie-consent element
in the meteoblue extractor (the lookup raising `NoSuchElementException` is the
same as it succeeding); a wait timeout, any other lookup failure, or an I/O
failure propagates out of the extractor, aborts the URL loop with the files
written so far in place, and aborts the driver loop over locations. -/
theorem C7_error_propagation :
    (∀ env : MeteoblueEnv, env.cookieLookup = .error .noSuchElement →
      scrape_meteoblue env = scrape_meteoblue { env with cookieLookup := .ok () }) ∧
    (∀ (env : MeteoblueEnv) (e : ScrapeErr), env.cookieLookup = .error e →
      e ≠ .noSuchElement → scrape_meteoblue env = .error e) ∧
    (∀ (env : MeteoblueEnv) (e : ScrapeErr),
      (env.cookieLookup = .ok () ∨ env.cookieLookup = .error .noSuchElement) →
      env.waitLoaded = .error e → scrape_meteoblue env = .error e) ∧
    (∀ (env : MeteoblueEnv) (src : String) (e : ScrapeErr),
      (env.cookieLookup = .ok () ∨ env.cookieLookup = .error .noSuchElement) →
      env.waitLoaded = .ok () → env.imageSrc = .ok src →
      env.fetchBytes src = .error e → scrape_meteoblue env = .error e) ∧
    (∀ (fetchR : String → Except ScrapeErr Img) (destDir url : String)
      (rest : List String) (fs : Fs) (warns : List String)
      (scraped : List (String × String)) (name : String) (e : ScrapeErr),
      urlSiteFile url = some name → fetchR url = .error e →
      processUrls fetchR destDir (url :: rest) fs warns scraped =
        ⟨fs, warns, scraped, some e⟩) ∧
    (∀ (fetchR : String → Except ScrapeErr Img) (name : String)
      (urls : List String) (rest : List (String × List String)) (fs : Fs)
      (e : ScrapeErr), (scrape_and_save fetchR fs name urls).err = some e →
      runLocations fetchR ((name, urls) :: rest) fs =
        ((scrape_and_save fetchR fs name urls).fs,
          (scrape_and_save fetchR fs name urls).warns, some e)) := by
  refine ⟨?_, ?_, ?_, ?_, ?_, ?_⟩
  · intro env h; simp [scrape_meteoblue, h]
  · intro env e h hne
    cases e with
    | noSuchElement => exact absurd rfl hne
    | timeoutError => simp [scrape_meteoblue, h, Except.bind]
    | ioError => simp [scrape_meteoblue, h, Except.bind]
    | fileExistsError => simp [scrape_meteoblue, h, Except.bind]
    | valueError => simp [scrape_meteoblue, h, Except.bind]
  · intro env e hc hw
    rcases hc with hc | hc <;> simp [scrape_meteoblue, hc, hw, Except.bind]
  · intro env src e hc hw hs hf
    rcases hc with hc | hc <;> simp [scrape_meteoblue, hc, hw, hs, hf, Except.bind]
  · intro fetchR destDir url rest fs warns scraped name e h1 h2
    simp [processUrls, h1, h2]
  · intro fetchR name urls rest fs e herr
    simp only [runLocations]
    rw [herr]

theorem C7_error_propagation_check :
    scrape_meteoblue ⟨.ok (), .error .timeoutError, .ok "s", fun _ => .ok ⟨1, 1⟩⟩ =
      .error .timeoutError :=
  C7_error_propagation.2.2.1 ⟨.ok (), .error .timeoutError, .ok "s", fun _ => .ok ⟨1, 1⟩⟩
    .timeoutError (Or.inl rfl) rfl

/-- Claim C8: the per-location output directory is created before any
scraping of that location; if it already exists, `os.makedirs` raises and the
location fails fatally with nothing scraped, no warning and no file written. -/
theorem C8_fresh_location_dir (fetchR : String → Except ScrapeErr Img) (fs : Fs)
    (location : String) (urls : List String) :
    ((FILE_DIR ++ "/" ++ location) ∈ fs.dirs →
      scrape_and_save fetchR fs location urls = ⟨fs, [], some .fileExistsError⟩) ∧
    ((FILE_DIR ++ "/" ++ location) ∉ fs.dirs →
      (FILE_DIR ++ "/" ++ location) ∈ (scrape_and_save fetchR fs location urls).fs.dirs) := by
  constructor
  · intro h; simp [scrape_and_save, makedirs, h]
  · intro h
    rw [scrape_and_save_dirs, if_neg h]
    exact List.mem_cons_self _ _

theorem C8_fresh_location_dir_check :
    scrape_and_save (fetchOk fun _ => ⟨1, 1⟩) ⟨[FILE_DIR ++ "/" ++ "t"], []⟩ "t" [] =
      ⟨⟨[FILE_DIR ++ "/" ++ "t"], []⟩, [], some .fileExistsError⟩ :=
  (C8_fresh_location_dir (fetchOk fun _ => ⟨1, 1⟩) ⟨[FILE_DIR ++ "/" ++ "t"], []⟩ "t" []).1
    (by decide)

/-- Claim C9: at run start the whole `./weather` tree is removed if present
and recreated empty, so no file below `./weather` survives into the new run
(on a well-formed filesystem, where files below `./weather` imply the
directory exists). -/
theorem C9_weather_dir_reset (fs : Fs)
    (hwf : ∀ e ∈ fs.files, inWeatherTree e.1.1 = true → FILE_DIR ∈ fs.dirs) :
    ∃ fs2, mainReset fs = .ok fs2 ∧ FILE_DIR ∈ fs2.dirs ∧
      ∀ e ∈ fs2.files, inWeatherTree e.1.1 = false := by
  have hwt : inWeatherTree FILE_DIR = true := by decide
  by_cases h : FILE_DIR ∈ fs.dirs
  · have hnot : FILE_DIR ∉ (rmtreeWeather fs).dirs := by
      intro hmem
      rcases List.mem_filter.mp hmem with ⟨-, hcond⟩
      simp [hwt] at hcond
    refine ⟨⟨FILE_DIR :: (rmtreeWeather fs).dirs, (rmtreeWeather fs).files⟩, ?_, by simp, ?_⟩
    · simp [mainReset, h, makedirs, hnot]
    · intro e he
      rcases List.mem_filter.mp he with ⟨-, hcond⟩
      simpa using hcond
  · have hnof : ∀ e ∈ fs.files, inWeatherTree e.1.1 = false := by
      intro e he
      cases hb : inWeatherTree e.1.1 with
      | false => rfl
      | true => exact absurd (hwf e he hb) h
    exact ⟨⟨FILE_DIR :: fs.dirs, fs.files⟩, by simp [mainReset, h, makedirs], by simp, hnof⟩

theorem C9_weather_dir_reset_check :
    ∃ fs2, mainReset ⟨[FILE_DIR], [((FILE_DIR ++ "/" ++ "t", "a.png"), ⟨1, 1⟩)]⟩ = .ok fs2 ∧
      FILE_DIR ∈ fs2.dirs ∧ ∀ e ∈ fs2.files, inWeatherTree e.1.1 = false :=
  C9_weather_dir_reset ⟨[FILE_DIR], [((FILE_DIR ++ "/" ++ "t", "a.png"), ⟨1, 1⟩)]⟩ (by decide)

/-- Claim C10: a location none of whose URLs matches a known site reaches the
`max()` call with zero scraped images, which raises `ValueError`: the run
aborts, the location's freshly created directory stays behind empty, no
`all.png` is written, and the remaining locations are not processed. -/
theorem C10_no_recognized_url_fails (fetchR : String → Except ScrapeErr Img)
    (fs : Fs) (location : String) (urls : List String)
    (rest : List (String × List String))
    (hunknown : ∀ u ∈ urls, urlSiteFile u = none)
    (hdir : (FILE_DIR ++ "/" ++ location) ∉ fs.dirs) :
    scrape_and_save fetchR fs location urls =
      ⟨⟨(FILE_DIR ++ "/" ++ location) :: fs.dirs, fs.files⟩,
        urls.map unknownSiteMsg, some .valueError⟩ ∧
    runLocations fetchR ((location, urls) :: rest) fs =
      (⟨(FILE_DIR ++ "/" ++ location) :: fs.dirs, fs.files⟩,
        urls.map unknownSiteMsg, some .valueError) := by
  have h1 : scrape_and_save fetchR fs location urls =
      ⟨⟨(FILE_DIR ++ "/" ++ location) :: fs.dirs, fs.files⟩,
        urls.map unknownSiteMsg, some .valueError⟩ := by
    simp only [scrape_and_save, makedirs, if_neg hdir]
    rw [processUrls_all_unknown fetchR (FILE_DIR ++ "/" ++ location) urls
      { fs with dirs := (FILE_DIR ++ "/" ++ location) :: fs.dirs } [] [] hunknown]
    simp
  refine ⟨h1, ?_⟩
  simp only [runLocations]
  rw [h1]

theorem C10_no_recognized_url_fails_check :
    scrape_and_save (fetchOk fun _ => ⟨1, 1⟩) ⟨[], []⟩ "t" ["u"] =
      ⟨⟨[FILE_DIR ++ "/" ++ "t"], []⟩, ["u"].map unknownSiteMsg, some .valueError⟩ :=
  (C10_no_recognized_url_fails (fetchOk fun _ => ⟨1, 1⟩) ⟨[], []⟩ "t" ["u"] []
    (by decide) (by decide)).1

lemma dirFiles_cons_dest (dirs : List String) (dest : String)
    (ws old : List ((String × String) × Img)) (canvas : Img)
    (hws : ∀ e ∈ ws, e.1.1 = dest) (hold : ∀ e ∈ old, e.1.1 ≠ dest) :
    dirFiles ⟨dirs, ((dest, "all.png"), canvas) :: (ws ++ old)⟩ dest =
      ("all.png" :: ws.map (fun e => e.1.2)).dedup := by
  rw [dirFiles]
  have h1 : ((((dest, "all.png"), canvas) :: (ws ++ old)).filter (fun e => e.1.1 == dest))
      = ((dest, "all.png"), canvas) :: ws := by
    rw [List.filter_cons_of_pos (by simp), List.filter_append,
      List.filter_eq_self.mpr (fun e he => by simp [hws e he]),
      List.filter_eq_nil_iff.mpr (fun e he => by simp [hold e he])]
    simp
  rw [show (Fs.files ⟨dirs, ((dest, "all.png"), canvas) :: (ws ++ old)⟩)
      = ((dest, "all.png"), canvas) :: (ws ++ old) from rfl]
  rw [h1]
  simp

/-- The file paths appended to `scraped_images` for recognized URLs. -/
def savedPaths (destDir : String) (urls : List String) : List (String × String) :=
  urls.map (fun u => (destDir, sitePng u))

/-- The (path, content) writes performed for recognized URLs. -/
def savedWrites (destDir : String) (f : String → Img) (urls : List String) :
    List ((String × String) × Img) :=
  urls.map (fun u => ((destDir, sitePng u), f u))

lemma scrape_and_save_ok (f : String → Img) (fs : Fs) (location : String)
    (u0 : String) (urest : List String)
    (hknown : ∀ u ∈ u0 :: urest, (urlSiteFile u).isSome)
    (hdir : (FILE_DIR ++ "/" ++ location) ∉ fs.dirs) :
    scrape_and_save (fetchOk f) fs location (u0 :: urest) =
      ⟨writeFile
          ⟨(FILE_DIR ++ "/" ++ location) :: fs.dirs,
            (savedWrites (FILE_DIR ++ "/" ++ location) f (u0 :: urest)).reverse ++ fs.files⟩
          (FILE_DIR ++ "/" ++ location, "all.png")
          (combinedImage ((savedPaths (FILE_DIR ++ "/" ++ location) (u0 :: urest)).map
            (readImage ⟨(FILE_DIR ++ "/" ++ location) :: fs.dirs,
              (savedWrites (FILE_DIR ++ "/" ++ location) f (u0 :: urest)).reverse
                ++ fs.files⟩))),
        [], none⟩ := by
  simp only [scrape_and_save, makedirs, if_neg hdir]
  rw [processUrls_ok f (FILE_DIR ++ "/" ++ location) (u0 :: urest)
    { fs with dirs := (FILE_DIR ++ "/" ++ location) :: fs.dirs } [] [] hknown]
  rfl

lemma dirFiles_writeFile_all (dirs : List String) (dest : String)
    (ws old : List ((String × String) × Img)) (canvas : Img)
    (hws : ∀ e ∈ ws, e.1.1 = dest) (hold : ∀ e ∈ old, e.1.1 ≠ dest) :
    dirFiles (writeFile ⟨dirs, ws ++ old⟩ (dest, "all.png") canvas) dest =
      ("all.png" :: ws.map (fun e => e.1.2)).dedup :=
  dirFiles_cons_dest dirs dest ws old canvas hws hold

/-- Claim C4 as amended: for a location with N recognized URLs (N at least 1)
whose derived file names are pairwise distinct, processed on a filesystem
where the location's directory does not yet exist and holds no files, the run
succeeds and the location's directory contains exactly the N site images plus
the one composite `all.png` - N + 1 files. -/
theorem C4_location_file_count (f : String → Img) (fs : Fs) (location : String)
    (urls : List String) (hne : urls ≠ [])
    (hknown : ∀ u ∈ urls, (urlSiteFile u).isSome)
    (hnodup : (urls.map sitePng).Nodup)
    (hdir : (FILE_DIR ++ "/" ++ location) ∉ fs.dirs)
    (hclean : ∀ e ∈ fs.files, e.1.1 ≠ FILE_DIR ++ "/" ++ location) :
    (scrape_and_save (fetchOk f) fs location urls).err = none ∧
    dirFiles (scrape_and_save (fetchOk f) fs location urls).fs
        (FILE_DIR ++ "/" ++ location) =
      "all.png" :: (urls.map sitePng).reverse ∧
    (dirFiles (scrape_and_save (fetchOk f) fs location urls).fs
        (FILE_DIR ++ "/" ++ location)).length = urls.length + 1 := by
  obtain ⟨u0, urest, rfl⟩ := List.exists_cons_of_ne_nil hne
  have hws : ∀ e ∈ (savedWrites (FILE_DIR ++ "/" ++ location) f (u0 :: urest)).reverse,
      e.1.1 = FILE_DIR ++ "/" ++ location := by
    intro e he
    rw [List.mem_reverse] at he
    rcases List.mem_map.mp he with ⟨u, -, rfl⟩
    rfl
  have hnd : ("all.png" :: ((u0 :: urest).map sitePng).reverse).Nodup := by
    refine List.nodup_cons.mpr ⟨?_, List.nodup_reverse.mpr hnodup⟩
    rw [List.mem_reverse]
    intro hmem
    rcases List.mem_map.mp hmem with ⟨u, hu, hequ⟩
    exact sitePng_ne_all u (hknown u hu) hequ
  have hmapw : ((savedWrites (FILE_DIR ++ "/" ++ location) f (u0 :: urest)).reverse).map
      (fun e => e.1.2) = ((u0 :: urest).map sitePng).reverse := by
    rw [List.map_reverse, savedWrites, List.map_map]
    rfl
  have hdf : dirFiles (scrape_and_save (fetchOk f) fs location (u0 :: urest)).fs
      (FILE_DIR ++ "/" ++ location) = "all.png" :: ((u0 :: urest).map sitePng).reverse := by
    rw [scrape_and_save_ok f fs location u0 urest hknown hdir]
    dsimp only
    rw [dirFiles_writeFile_all _ _ _ _ _ hws hclean, hmapw,
      List.dedup_eq_self.mpr hnd]
  refine ⟨?_, hdf, ?_⟩
  · rw [scrape_and_save_ok f fs location u0 urest hknown hdir]
  · rw [hdf]
    simp

theorem C4_location_file_count_check :
    (["a.yr.no", "b.shmu.sk"] ≠ ([] : List String)) ∧
    (dirFiles (scrape_and_save (fetchOk fun _ => ⟨5, 5⟩) ⟨[], []⟩ "t"
        ["a.yr.no", "b.shmu.sk"]).fs (FILE_DIR ++ "/" ++ "t")).length =
      ["a.yr.no", "b.shmu.sk"].length + 1 :=
  ⟨by decide,
    (C4_location_file_count (fun _ => ⟨5, 5⟩) ⟨[], []⟩ "t" ["a.yr.no", "b.shmu.sk"]
      (by decide) (by decide) (by decide) (by decide) (by decide)).2.2⟩

/-- Claim C4 as stated is false: with two recognized URLs that derive the
same file name (two yr.no URLs), the second write overwrites the first, so
the location directory holds 2 files, not N + 1 = 3. -/
theorem C4_counterexample :
    (∀ u ∈ ["a.yr.no", "b.yr.no"], (urlSiteFile u).isSome) ∧
    ¬ ((dirFiles (scrape_and_save (fetchOk fun _ => ⟨5, 5⟩) ⟨[], []⟩ "t"
        ["a.yr.no", "b.yr.no"]).fs (FILE_DIR ++ "/" ++ "t")).length =
      ["a.yr.no", "b.yr.no"].length + 1) := by
  constructor
  · decide
  · decide
